import Mathlib

set_option maxRecDepth 100000
set_option maxHeartbeats 10000000

namespace TxDecoder

/-! Shallow embedding of the recursive-bloom/tx-decoder repository: the
transaction decode / signature-recovery pipeline exercised by
should_agree_with_vitalik in src/src/main.rs, and the error taxonomies of
src/src/transaction/error.rs.  Byte sequences are lists of naturals below
256; 256-bit machine integers are naturals reduced modulo their width where
the source can overflow. -/

/-- Modelled from the spec: keccak-256, the hash used by the Signature Scheme
for the signing digest and for sender-address derivation; the hashing crate
(keccak_hash) is external to src/.  64-bit lane rotation. -/
def rotl64 (x n : Nat) : Nat :=
  ((x <<< n) ||| (x >>> (64 - n))) &&& 0xFFFFFFFFFFFFFFFF

/-- Modelled from the spec: 64-bit bitwise complement of a keccak lane. -/
def bnot64 (x : Nat) : Nat := x ^^^ 0xFFFFFFFFFFFFFFFF

/-- Modelled from the spec: one round of the keccak-f[1600] permutation on a
25-lane state (flat index x + 5*y), with round constant rc. -/
def keccakRound (s : List Nat) (rc : Nat) : List Nat :=
  let g := fun (i : Nat) => s.getD i 0
  let a0 := g 0
  let a1 := g 1
  let a2 := g 2
  let a3 := g 3
  let a4 := g 4
  let a5 := g 5
  let a6 := g 6
  let a7 := g 7
  let a8 := g 8
  let a9 := g 9
  let a10 := g 10
  let a11 := g 11
  let a12 := g 12
  let a13 := g 13
  let a14 := g 14
  let a15 := g 15
  let a16 := g 16
  let a17 := g 17
  let a18 := g 18
  let a19 := g 19
  let a20 := g 20
  let a21 := g 21
  let a22 := g 22
  let a23 := g 23
  let a24 := g 24
  let c0 := a0 ^^^ a5 ^^^ a10 ^^^ a15 ^^^ a20
  let c1 := a1 ^^^ a6 ^^^ a11 ^^^ a16 ^^^ a21
  let c2 := a2 ^^^ a7 ^^^ a12 ^^^ a17 ^^^ a22
  let c3 := a3 ^^^ a8 ^^^ a13 ^^^ a18 ^^^ a23
  let c4 := a4 ^^^ a9 ^^^ a14 ^^^ a19 ^^^ a24
  let d0 := c4 ^^^ rotl64 c1 1
  let d1 := c0 ^^^ rotl64 c2 1
  let d2 := c1 ^^^ rotl64 c3 1
  let d3 := c2 ^^^ rotl64 c4 1
  let d4 := c3 ^^^ rotl64 c0 1
  let t0 := a0 ^^^ d0
  let t1 := a1 ^^^ d1
  let t2 := a2 ^^^ d2
  let t3 := a3 ^^^ d3
  let t4 := a4 ^^^ d4
  let t5 := a5 ^^^ d0
  let t6 := a6 ^^^ d1
  let t7 := a7 ^^^ d2
  let t8 := a8 ^^^ d3
  let t9 := a9 ^^^ d4
  let t10 := a10 ^^^ d0
  let t11 := a11 ^^^ d1
  let t12 := a12 ^^^ d2
  let t13 := a13 ^^^ d3
  let t14 := a14 ^^^ d4
  let t15 := a15 ^^^ d0
  let t16 := a16 ^^^ d1
  let t17 := a17 ^^^ d2
  let t18 := a18 ^^^ d3
  let t19 := a19 ^^^ d4
  let t20 := a20 ^^^ d0
  let t21 := a21 ^^^ d1
  let t22 := a22 ^^^ d2
  let t23 := a23 ^^^ d3
  let t24 := a24 ^^^ d4
  let b0 := t0
  let b1 := rotl64 t6 44
  let b2 := rotl64 t12 43
  let b3 := rotl64 t18 21
  let b4 := rotl64 t24 14
  let b5 := rotl64 t3 28
  let b6 := rotl64 t9 20
  let b7 := rotl64 t10 3
  let b8 := rotl64 t16 45
  let b9 := rotl64 t22 61
  let b10 := rotl64 t1 1
  let b11 := rotl64 t7 6
  let b12 := rotl64 t13 25
  let b13 := rotl64 t19 8
  let b14 := rotl64 t20 18
  let b15 := rotl64 t4 27
  let b16 := rotl64 t5 36
  let b17 := rotl64 t11 10
  let b18 := rotl64 t17 15
  let b19 := rotl64 t23 56
  let b20 := rotl64 t2 62
  let b21 := rotl64 t8 55
  let b22 := rotl64 t14 39
  let b23 := rotl64 t15 41
  let b24 := rotl64 t21 2
  [(b0 ^^^ (bnot64 b1 &&& b2)) ^^^ rc,
   b1 ^^^ (bnot64 b2 &&& b3),
   b2 ^^^ (bnot64 b3 &&& b4),
   b3 ^^^ (bnot64 b4 &&& b0),
   b4 ^^^ (bnot64 b0 &&& b1),
   b5 ^^^ (bnot64 b6 &&& b7),
   b6 ^^^ (bnot64 b7 &&& b8),
   b7 ^^^ (bnot64 b8 &&& b9),
   b8 ^^^ (bnot64 b9 &&& b5),
   b9 ^^^ (bnot64 b5 &&& b6),
   b10 ^^^ (bnot64 b11 &&& b12),
   b11 ^^^ (bnot64 b12 &&& b13),
   b12 ^^^ (bnot64 b13 &&& b14),
   b13 ^^^ (bnot64 b14 &&& b10),
   b14 ^^^ (bnot64 b10 &&& b11),
   b15 ^^^ (bnot64 b16 &&& b17),
   b16 ^^^ (bnot64 b17 &&& b18),
   b17 ^^^ (bnot64 b18 &&& b19),
   b18 ^^^ (bnot64 b19 &&& b15),
   b19 ^^^ (bnot64 b15 &&& b16),
   b20 ^^^ (bnot64 b21 &&& b22),
   b21 ^^^ (bnot64 b22 &&& b23),
   b22 ^^^ (bnot64 b23 &&& b24),
   b23 ^^^ (bnot64 b24 &&& b20),
   b24 ^^^ (bnot64 b20 &&& b21)]

/-- Modelled from the spec: the 24 keccak-f[1600] round constants. -/
def keccakRCs : List Nat :=
  [0x1, 0x8082, 0x800000000000808a, 0x8000000080008000,
   0x808b, 0x80000001, 0x8000000080008081, 0x8000000000008009,
   0x8a, 0x88, 0x80008009, 0x8000000a,
   0x8000808b, 0x800000000000008b, 0x8000000000008089, 0x8000000000008003,
   0x8000000000008002, 0x8000000000000080, 0x800a, 0x800000008000000a,
   0x8000000080008081, 0x8000000000008080, 0x80000001, 0x8000000080008008]

/-- Modelled from the spec: the full keccak-f[1600] permutation. -/
def keccakP (s : List Nat) : List Nat := keccakRCs.foldl keccakRound s

/-- Modelled from the spec: keccak padding (pad10*1 with domain byte 0x01)
to a multiple of the 136-byte rate. -/
def kpad (msg : List Nat) : List Nat :=
  let padlen := 136 - msg.length % 136
  if padlen = 1 then msg ++ [0x81]
  else msg ++ [0x01] ++ List.replicate (padlen - 2) 0 ++ [0x80]

/-- Modelled from the spec: group bytes into 64-bit little-endian lanes. -/
def leLanes : List Nat → List Nat
  | b0 :: b1 :: b2 :: b3 :: b4 :: b5 :: b6 :: b7 :: rest =>
    (b0 + 256 * (b1 + 256 * (b2 + 256 * (b3 + 256 * (b4 + 256 * (b5 + 256 * (b6 + 256 * b7)))))))
      :: leLanes rest
  | _ => []

/-- Modelled from the spec: xor a block of lanes into the front of the state. -/
def xorInto : List Nat → List Nat → List Nat
  | s, [] => s
  | [], _ => []
  | a :: s, b :: l => (a ^^^ b) :: xorInto s l

/-- Modelled from the spec: absorb one 136-byte block and permute. -/
def absorbBlock (s block : List Nat) : List Nat :=
  keccakP (xorInto s (leLanes block))

/-- Modelled from the spec: absorb a padded message, one block per fuel step. -/
def absorbAux : Nat → List Nat → List Nat → List Nat
  | 0, s, _ => s
  | f + 1, s, bytes => absorbAux f (absorbBlock s (bytes.take 136)) (bytes.drop 136)

/-- Modelled from the spec: the low eight little-endian bytes of a lane. -/
def laneBytes (l : Nat) : List Nat :=
  [l &&& 255, (l >>> 8) &&& 255, (l >>> 16) &&& 255, (l >>> 24) &&& 255,
   (l >>> 32) &&& 255, (l >>> 40) &&& 255, (l >>> 48) &&& 255, (l >>> 56) &&& 255]

/-- Modelled from the spec: keccak-256 of a byte sequence, as 32 bytes. -/
def keccak256 (msg : List Nat) : List Nat :=
  let padded := kpad msg
  let s := absorbAux (padded.length / 136) (List.replicate 25 0) padded
  laneBytes (s.getD 0 0) ++ laneBytes (s.getD 1 0) ++ laneBytes (s.getD 2 0) ++ laneBytes (s.getD 3 0)

end TxDecoder

namespace TxDecoder

/-- Modelled from the spec: big-endian bytes to a natural number. -/
def beToNat (bs : List Nat) : Nat := bs.foldl (fun acc b => acc * 256 + b) 0

/-- Modelled from the spec: fixed-width big-endian byte representation
(w bytes, most significant first). -/
def natToBe : Nat → Nat → List Nat
  | 0, _ => []
  | w + 1, n => natToBe w (n / 256) ++ [n % 256]

/-- Modelled from the spec: number of bytes in the minimal big-endian
representation (fuel-bounded, enough for 512-bit values). -/
def byteLenAux : Nat → Nat → Nat
  | 0, _ => 0
  | f + 1, n => if n = 0 then 0 else byteLenAux f (n / 256) + 1

/-- Modelled from the spec: byte length of the minimal representation. -/
def byteLen (n : Nat) : Nat := byteLenAux 64 n

/-- Modelled from the spec: minimal big-endian bytes of a natural number
(empty for zero); the canonical integer payload of the codec. -/
def minBeBytes (n : Nat) : List Nat := natToBe (byteLen n) n

/-- Modelled from the spec: the Codec Adapter byte-string encoder
(single byte below 0x80 stands for itself, short and long string headers). -/
def rlpStr (bs : List Nat) : List Nat :=
  if bs.length = 1 ∧ bs.getD 0 0 < 128 then bs
  else if bs.length ≤ 55 then (128 + bs.length) :: bs
  else
    let lb := minBeBytes bs.length
    ((183 + lb.length) :: lb) ++ bs

/-- Modelled from the spec: the Codec Adapter integer encoder (canonical:
minimal big-endian payload, zero encoded as the empty string). -/
def rlpInt (n : Nat) : List Nat := rlpStr (minBeBytes n)

/-- Modelled from the spec: the Codec Adapter list encoder over an already
encoded payload. -/
def rlpList (payload : List Nat) : List Nat :=
  if payload.length ≤ 55 then (192 + payload.length) :: payload
  else
    let lb := minBeBytes payload.length
    ((247 + lb.length) :: lb) ++ payload

/-- Modelled from the spec: the structural failure codes of the Codec
Adapter (the rlp crate decode error, external to src/). -/
inductive DecoderError where
  | rlpIsTooBig
  | rlpIsTooShort
  | rlpExpectedToBeList
  | rlpExpectedToBeData
  | rlpIncorrectListLen
  | rlpDataLenLeadingZero
  | rlpListLenLeadingZero
  | rlpInvalidIndirection
  | rlpInconsistentLengthAndData
  | custom (msg : String)
deriving DecidableEq

/-- Modelled from the spec: the diagnostic message of a codec failure
(the rlp crate renders the variant name, debug-style). -/
def decoderErrorDisplay : DecoderError → String
  | .rlpIsTooBig => "RlpIsTooBig"
  | .rlpIsTooShort => "RlpIsTooShort"
  | .rlpExpectedToBeList => "RlpExpectedToBeList"
  | .rlpExpectedToBeData => "RlpExpectedToBeData"
  | .rlpIncorrectListLen => "RlpIncorrectListLen"
  | .rlpDataLenLeadingZero => "RlpDataLenWithZeroPrefix"
  | .rlpListLenLeadingZero => "RlpListLenWithZeroPrefix"
  | .rlpInvalidIndirection => "RlpInvalidIndirection"
  | .rlpInconsistentLengthAndData => "RlpInconsistentLengthAndData"
  | .custom m => "Custom(\x22" ++ m ++ "\x22)"

/-- Modelled from the spec: parse one byte-string item off the front of a
buffer, enforcing canonical form; returns payload and remaining bytes. -/
def parseStr (bs : List Nat) : Except DecoderError (List Nat × List Nat) :=
  match bs with
  | [] => .error .rlpIsTooShort
  | b :: rest =>
    if b < 128 then .ok ([b], rest)
    else if b < 184 then
      let l := b - 128
      if rest.length < l then .error .rlpIsTooShort
      else if l = 1 ∧ rest.getD 0 0 < 128 then .error .rlpInvalidIndirection
      else .ok (rest.take l, rest.drop l)
    else if b < 192 then
      let ll := b - 183
      if rest.length < ll then .error .rlpIsTooShort
      else if rest.getD 0 0 = 0 then .error .rlpDataLenLeadingZero
      else
        let l := beToNat (rest.take ll)
        if l ≤ 55 then .error .rlpInconsistentLengthAndData
        else if (rest.drop ll).length < l then .error .rlpIsTooShort
        else .ok ((rest.drop ll).take l, (rest.drop ll).drop l)
    else .error .rlpExpectedToBeData

/-- Modelled from the spec: parse the top-level list header, returning the
list payload and the bytes trailing the whole list. -/
def parseListPayload (bs : List Nat) : Except DecoderError (List Nat × List Nat) :=
  match bs with
  | [] => .error .rlpIsTooShort
  | b :: rest =>
    if b < 192 then .error .rlpExpectedToBeList
    else if b < 248 then
      let l := b - 192
      if rest.length < l then .error .rlpIsTooShort
      else .ok (rest.take l, rest.drop l)
    else
      let ll := b - 247
      if rest.length < ll then .error .rlpIsTooShort
      else if rest.getD 0 0 = 0 then .error .rlpListLenLeadingZero
      else
        let l := beToNat (rest.take ll)
        if l ≤ 55 then .error .rlpInconsistentLengthAndData
        else if (rest.drop ll).length < l then .error .rlpIsTooShort
        else .ok ((rest.drop ll).take l, (rest.drop ll).drop l)

/-- Modelled from the spec: parse one canonically encoded unsigned integer
item of at most maxw bytes (leading zero bytes rejected). -/
def parseIntItem (bs : List Nat) (maxw : Nat) : Except DecoderError (Nat × List Nat) := do
  let (payload, rest) ← parseStr bs
  if maxw < payload.length then throw .rlpIsTooBig
  else match payload with
    | 0 :: _ => throw .rlpInvalidIndirection
    | _ => pure (beToNat payload, rest)

/-- Modelled from the spec: the decoded transaction field list (nonce, gas
price, gas limit, recipient-or-creation, value, payload, signature triple);
integers are 256-bit, v is 64-bit, the recipient is a 160-bit address. -/
structure TxFields where
  nonce : Nat
  gasPrice : Nat
  gas : Nat
  action : Option Nat
  value : Nat
  data : List Nat
  v : Nat
  r : Nat
  s : Nat
deriving DecidableEq

/-- Modelled from the spec: decode one RLP transaction from a byte buffer:
the buffer must hold exactly one nine-item list; an empty recipient field
means contract creation, a 20-byte one a call. -/
def decodeTx (bs : List Nat) : Except DecoderError TxFields := do
  let (payload, rest) ← parseListPayload bs
  if rest = [] then
    let (nonce, r1) ← parseIntItem payload 32
    let (gasPrice, r2) ← parseIntItem r1 32
    let (gas, r3) ← parseIntItem r2 32
    let (toB, r4) ← parseStr r3
    let action ←
      if toB = [] then pure none
      else if toB.length = 20 then pure (some (beToNat toB))
      else if toB.length < 20 then throw DecoderError.rlpIsTooShort
      else throw DecoderError.rlpIsTooBig
    let (value, r5) ← parseIntItem r4 32
    let (data, r6) ← parseStr r5
    let (v, r7) ← parseIntItem r6 8
    let (r, r8) ← parseIntItem r7 32
    let (s, r9) ← parseIntItem r8 32
    if r9 = [] then
      pure ⟨nonce, gasPrice, gas, action, value, data, v, r, s⟩
    else throw DecoderError.rlpIncorrectListLen
  else throw DecoderError.rlpIsTooBig

end TxDecoder

namespace TxDecoder

/-- Modelled from the spec: the validation error taxonomy of
src/src/transaction/error.rs is declared below; this is the crypto-failure
type of the Signature Scheme (parity_crypto publickey Error, external to
src/), carried into Error.InvalidSignature by a total conversion. -/
inductive EthPublicKeyCryptoError where
  | invalidSecretKey
  | invalidPublicKey
  | invalidAddress
  | invalidSignature
  | invalidMessage
  | custom (msg : String)
deriving DecidableEq

/-- Modelled from the spec: the rendered message of a crypto failure. -/
def cryptoErrorDisplay : EthPublicKeyCryptoError → String
  | .invalidSecretKey => "Invalid secret key"
  | .invalidPublicKey => "Invalid public key"
  | .invalidAddress => "Invalid address"
  | .invalidSignature => "Invalid EC signature"
  | .invalidMessage => "Invalid AES message"
  | .custom m => m

/-- Modelled from the spec: the field prime of the secp256k1 curve. -/
def secpP : Nat := 2 ^ 256 - 2 ^ 32 - 977

/-- Modelled from the spec: the group order of the secp256k1 curve. -/
def secpN : Nat := 0xFFFFFFFFFFFFFFFFFFFFFFFFFFFFFFFEBAAEDCE6AF48A03BBFD25E8CD0364141

/-- Modelled from the spec: x coordinate of the secp256k1 base point. -/
def secpGx : Nat := 0x79BE667EF9DCBBAC55A06295CE870B07029BFCDB2DCE28D959F2815B16F81798

/-- Modelled from the spec: y coordinate of the secp256k1 base point. -/
def secpGy : Nat := 0x483ADA7726A3C4655DA4FBFC0E1108A8FD17B448A68554199C47D08FFB10D4B8

/-- Modelled from the spec: fuel-bounded square-and-multiply modular
exponentiation (fuel bounds the exponent bits). -/
def powModAux : Nat → Nat → Nat → Nat → Nat
  | 0, _, _, m => 1 % m
  | f + 1, b, e, m =>
    if e = 0 then 1 % m
    else
      let h := powModAux f ((b * b) % m) (e / 2) m
      if e % 2 = 1 then (h * b) % m else h

/-- Modelled from the spec: modular exponentiation for 256-bit moduli. -/
def powMod (b e m : Nat) : Nat := powModAux 257 (b % m) e m

/-- Modelled from the spec: a secp256k1 point in Jacobian coordinates
(z = 0 encodes the point at infinity). -/
structure JPoint where
  x : Nat
  y : Nat
  z : Nat
deriving DecidableEq

/-- Modelled from the spec: Jacobian point doubling on secp256k1. -/
def jdouble (p : JPoint) : JPoint :=
  if p.z = 0 ∨ p.y = 0 then ⟨0, 1, 0⟩
  else
    let ysq := (p.y * p.y) % secpP
    let s := (4 * p.x * ysq) % secpP
    let m := (3 * p.x * p.x) % secpP
    let x2 := (m * m + 2 * secpP * secpP - 2 * s) % secpP
    let y2 := (m * ((s + secpP - x2) % secpP) + secpP * secpP - 8 * ((ysq * ysq) % secpP)) % secpP
    let z2 := (2 * p.y * p.z) % secpP
    ⟨x2, y2, z2⟩

/-- Modelled from the spec: general Jacobian point addition on secp256k1. -/
def jadd (p q : JPoint) : JPoint :=
  if p.z = 0 then q
  else if q.z = 0 then p
  else
    let z1sq := (p.z * p.z) % secpP
    let z2sq := (q.z * q.z) % secpP
    let u1 := (p.x * z2sq) % secpP
    let u2 := (q.x * z1sq) % secpP
    let s1 := (p.y * ((z2sq * q.z) % secpP)) % secpP
    let s2 := (q.y * ((z1sq * p.z) % secpP)) % secpP
    if u1 = u2 then
      if s1 = s2 then jdouble p else ⟨0, 1, 0⟩
    else
      let h := (u2 + secpP - u1) % secpP
      let rr := (s2 + secpP - s1) % secpP
      let h2 := (h * h) % secpP
      let h3 := (h * h2) % secpP
      let x3 := (rr * rr + 2 * secpP * secpP - h3 - 2 * ((u1 * h2) % secpP)) % secpP
      let y3 := (rr * ((u1 * h2 + secpP - x3) % secpP) + secpP * secpP - ((s1 * h3) % secpP)) % secpP
      let z3 := (h * ((p.z * q.z) % secpP)) % secpP
      ⟨x3, y3, z3⟩

/-- Modelled from the spec: fuel-bounded double-and-add scalar
multiplication, least significant bit first. -/
def jmulAux : Nat → Nat → JPoint → JPoint → JPoint
  | 0, _, _, acc => acc
  | f + 1, k, p, acc =>
    if k = 0 then acc
    else jmulAux f (k / 2) (jdouble p) (if k % 2 = 1 then jadd acc p else acc)

/-- Modelled from the spec: scalar multiplication for scalars below 2^256. -/
def jmul (k : Nat) (p : JPoint) : JPoint := jmulAux 256 k p ⟨0, 1, 0⟩

/-- Modelled from the spec: convert a Jacobian point to affine coordinates;
none for the point at infinity. -/
def toAffine (p : JPoint) : Option (Nat × Nat) :=
  if p.z = 0 then none
  else
    let zi := powMod p.z (secpP - 2) secpP
    let zi2 := (zi * zi) % secpP
    some ((p.x * zi2) % secpP, (p.y * ((zi2 * zi) % secpP)) % secpP)

/-- Modelled from the spec: recover the candidate curve point for the
signature scalar r and the recovery bit: x = r, y the square root of
x^3 + 7 whose parity matches the bit; none when no such point exists. -/
def decompressR (r bit : Nat) : Option (Nat × Nat) :=
  let ysq := (powMod r 3 secpP + 7) % secpP
  let y0 := powMod ysq ((secpP + 1) / 4) secpP
  if (y0 * y0) % secpP = ysq then
    some (r, if y0 % 2 = bit % 2 then y0 else (secpP - y0) % secpP)
  else none

/-- Modelled from the spec: the point u1*G + u2*R of public-key recovery,
with u1 = -z/r and u2 = s/r modulo the group order (infinity when the
candidate point does not exist). -/
def recoverQ (r s bit z : Nat) : JPoint :=
  match decompressR r bit with
  | none => ⟨0, 1, 0⟩
  | some xy =>
    let rinv := powMod r (secpN - 2) secpN
    let u1 := (((secpN - z % secpN) % secpN) * rinv) % secpN
    let u2 := (s * rinv) % secpN
    jadd (jmul u1 ⟨secpGx, secpGy, 1⟩) (jmul u2 ⟨xy.1, xy.2, 1⟩)

/-- Modelled from the spec: the sender address is the low 160 bits of the
keccak-256 hash of the 64-byte uncompressed public key. -/
def pubToAddress (qx qy : Nat) : Nat :=
  beToNat ((keccak256 (natToBe 32 qx ++ natToBe 32 qy)).drop 12)

/-- Modelled from the spec: recover_sender: fails with InvalidSignature when
r or s is zero or at least the curve order, when no candidate point exists
for r, or when the recovered point is at infinity; otherwise the address. -/
def recoverSender (r s bit z : Nat) : Except EthPublicKeyCryptoError Nat :=
  if 0 < r ∧ r < secpN ∧ 0 < s ∧ s < secpN then
    match decompressR r bit with
    | none => .error .invalidSignature
    | some _ =>
      match toAffine (recoverQ r s bit z) with
      | none => .error .invalidSignature
      | some xy => .ok (pubToAddress xy.1 xy.2)
  else .error .invalidSignature

end TxDecoder

namespace TxDecoder

/-- Bounds-violation payload of Error.InvalidGasLimit; modelled from the
spec: the OutOfBounds type lives in the external unexpected crate; optional
lower and upper bound and the offending value. -/
structure OutOfBoundsU256 where
  min : Option Nat
  max : Option Nat
  found : Nat
deriving DecidableEq

/-- Modelled from the spec: decimal rendering of a U256, as the Display
implementation the ethereum-types crate gives it. -/
def u256Display (n : Nat) : String := Nat.repr n

/-- Modelled from the spec: the Display of the external OutOfBounds value. -/
def outOfBoundsDisplay (b : OutOfBoundsU256) : String :=
  let m := match b.min, b.max with
    | some mn, some mx => "Min=" ++ u256Display mn ++ ", Max=" ++ u256Display mx
    | some mn, none => "Min=" ++ u256Display mn
    | none, some mx => "Max=" ++ u256Display mx
    | none, none => ""
  "Value " ++ u256Display b.found ++ " out of bounds. " ++ m

/-- Errors concerning transaction processing: the Error enum of
src/src/transaction/error.rs, with U256 fields embedded as naturals. -/
inductive Error where
  | alreadyImported
  | old
  | limitReached
  | insufficientGasPrice (minimal got : Nat)
  | tooCheapToReplace (prev new : Option Nat)
  | insufficientGas (minimal got : Nat)
  | insufficientBalance (balance cost : Nat)
  | gasLimitExceeded (limit got : Nat)
  | invalidGasLimit (oob : OutOfBoundsU256)
  | senderBanned
  | recipientBanned
  | codeBanned
  | invalidChainId
  | notAllowed
  | invalidSignature (msg : String)
  | tooBig
  | invalidRlp (msg : String)
deriving DecidableEq

/-- Debug rendering of an optional U256, as Rust prints Option with the
braces-question formatter in the TooCheapToReplace arm of
src/src/transaction/error.rs lines 109-112. -/
def optionU256Debug : Option Nat → String
  | none => "None"
  | some n => "Some(" ++ Nat.repr n ++ ")"

/-- The variant-specific detail string of the Display implementation of
Error, src/src/transaction/error.rs lines 106-132. -/
def errorMsg : Error → String
  | .alreadyImported => "Already imported"
  | .old => "No longer valid"
  | .tooCheapToReplace prev new =>
    "Gas price too low to replace, previous tx gas: " ++ optionU256Debug prev ++
      ", new tx gas: " ++ optionU256Debug new
  | .limitReached => "Transaction limit reached"
  | .insufficientGasPrice minimal got =>
    "Insufficient gas price. Min=" ++ u256Display minimal ++ ", Given=" ++ u256Display got
  | .insufficientGas minimal got =>
    "Insufficient gas. Min=" ++ u256Display minimal ++ ", Given=" ++ u256Display got
  | .insufficientBalance balance cost =>
    "Insufficient balance for transaction. Balance=" ++ u256Display balance ++
      ", Cost=" ++ u256Display cost
  | .gasLimitExceeded limit got =>
    "Gas limit exceeded. Limit=" ++ u256Display limit ++ ", Given=" ++ u256Display got
  | .invalidGasLimit oob => "Invalid gas limit. " ++ outOfBoundsDisplay oob
  | .senderBanned => "Sender is temporarily banned."
  | .recipientBanned => "Recipient is temporarily banned."
  | .codeBanned => "Contract code is temporarily banned."
  | .invalidChainId => "Transaction of this chain ID is not allowed on this chain."
  | .invalidSignature err => "Transaction has invalid signature: " ++ err ++ "."
  | .notAllowed => "Sender does not have permissions to execute this type of transaction"
  | .tooBig => "Transaction too big"
  | .invalidRlp err => "Transaction has invalid RLP structure: " ++ err ++ "."

/-- The Display implementation of Error, src/src/transaction/error.rs
line 134: the detail wrapped as a transaction error. -/
def errorDisplay (e : Error) : String := "Transaction error (" ++ errorMsg e ++ ")"

/-- The From conversion of a crypto failure, src/src/transaction/error.rs
lines 91-95. -/
def fromCrypto (e : EthPublicKeyCryptoError) : Error :=
  Error.invalidSignature (cryptoErrorDisplay e)

/-- The From conversion of a codec failure, src/src/transaction/error.rs
lines 97-101. -/
def fromDecoder (e : DecoderError) : Error :=
  Error.invalidRlp (decoderErrorDisplay e)

/-- Modelled from the spec: decode_v of the Signature Scheme: 27 and 28 give
the legacy pair, 35 and above the replay-protected pair, anything else
signals InvalidSignature. -/
def decodeV (v : Nat) : Except Error (Nat × Option Nat) :=
  if v = 27 ∨ v = 28 then .ok (v - 27, none)
  else if 35 ≤ v then .ok ((v - 35) % 2, some ((v - 35) / 2))
  else .error (Error.invalidSignature "invalid v")

/-- Modelled from the spec: encode_v, the inverse convention used when
re-serializing, computed in 64-bit arithmetic. -/
def encodeV (bit : Nat) (chainId : Option Nat) : Nat :=
  (match chainId with
   | none => 27 + bit
   | some c => c * 2 + 35 + bit) % 2 ^ 64

/-- Modelled from the spec: the canonical encoding of the transaction fields
that is hashed for signing; with a chain id the three extra fields
(chain_id, 0, 0) are appended before hashing. -/
def signingPayload (t : TxFields) (chainId : Option Nat) : List Nat :=
  let base :=
    rlpInt t.nonce ++ rlpInt t.gasPrice ++ rlpInt t.gas ++
      rlpStr (match t.action with | none => [] | some a => natToBe 20 a) ++
      rlpInt t.value ++ rlpStr t.data
  rlpList (match chainId with
    | none => base
    | some c => base ++ rlpInt c ++ rlpInt 0 ++ rlpInt 0)

/-- Modelled from the spec: signing_digest as a 256-bit natural. -/
def signingDigest (t : TxFields) (chainId : Option Nat) : Nat :=
  beToNat (keccak256 (signingPayload t chainId))

/-- Modelled from the spec: a SignedTransaction owns the fields and the
derived sender address and chain id, computed by the verifying constructor. -/
structure SignedTx where
  tx : TxFields
  sender : Nat
  chainId : Option Nat
deriving DecidableEq

/-- Modelled from the spec: the verifying constructor SignedTransaction::new:
decode v, compute the digest with the recovered chain id, recover the
sender; never yields a partially validated value. -/
def signedTxNew (t : TxFields) : Except Error SignedTx :=
  match decodeV t.v with
  | .error e => .error e
  | .ok (bit, chainId) =>
    match recoverSender t.r t.s bit (signingDigest t chainId) with
    | .error ce => .error (fromCrypto ce)
    | .ok a => .ok ⟨t, a, chainId⟩

/-- Modelled from the spec: the full pipeline of the harness: decode the
byte buffer, then run the verifying constructor; a codec failure is carried
into InvalidRlp by the total conversion. -/
def decodeAndVerify (bs : List Nat) : Except Error SignedTx :=
  match decodeTx bs with
  | .error de => .error (fromDecoder de)
  | .ok t => signedTxNew t

/-- The recovered sender of a byte buffer when the pipeline succeeds. -/
def senderOf (bs : List Nat) : Option Nat :=
  match decodeAndVerify bs with
  | .ok st => some st.sender
  | .error _ => none

end TxDecoder

namespace TxDecoder

/-- Lower-case hexadecimal digit character. -/
def hexDigit (n : Nat) : Char :=
  if n < 10 then Char.ofNat (48 + n) else Char.ofNat (87 + n)

/-- Digits of the lower-case hexadecimal rendering (fuel-bounded). -/
def hexReprAux : Nat → Nat → List Char
  | 0, _ => []
  | f + 1, n => if n = 0 then [] else hexReprAux f (n / 16) ++ [hexDigit (n % 16)]

/-- Lower-case hexadecimal rendering of a natural, as the Rust x-formatter
used by the Display implementation of VmError prints machine integers. -/
def hexRepr (n : Nat) : String :=
  if n = 0 then "0" else String.mk (hexReprAux 64 n)

/-- VM errors: the VmError enum of src/src/transaction/error.rs lines
146-194, with machine integers embedded as naturals and static strings as
String. -/
inductive VmError where
  | outOfGas
  | badJumpDestination (destination : Nat)
  | badInstruction (instruction : Nat)
  | stackUnderflow (instruction : String) (wanted onStack : Nat)
  | outOfStack (instruction : String) (wanted limit : Nat)
  | builtIn (nm : String)
  | mutableCallInStaticContext
  | internal (msg : String)
  | wasm (msg : String)
  | outOfBounds
  | reverted
deriving DecidableEq

/-- The Display implementation of VmError, src/src/transaction/error.rs
lines 197-214. -/
def vmErrorDisplay : VmError → String
  | .outOfGas => "Out of gas"
  | .badJumpDestination destination => "Bad jump destination " ++ hexRepr destination
  | .badInstruction instruction => "Bad instruction " ++ hexRepr instruction
  | .stackUnderflow instruction wanted onStack =>
    "Stack underflow " ++ instruction ++ " " ++ Nat.repr wanted ++ "/" ++ Nat.repr onStack
  | .outOfStack instruction wanted limit =>
    "Out of stack " ++ instruction ++ " " ++ Nat.repr wanted ++ "/" ++ Nat.repr limit
  | .builtIn nm => "Built-in failed: " ++ nm
  | .internal msg => "Internal error: " ++ msg
  | .mutableCallInStaticContext => "Mutable call in static context"
  | .wasm msg => "Internal error: " ++ msg
  | .outOfBounds => "Out of bounds"
  | .reverted => "Reverted"

/-- Modelled from the spec: ExecutionError lives in the errors module,
which is absent from src/; only its rendered message reaches the Display
of CallError, so it is embedded as that message. -/
inductive ExecutionError where
  | rendered (msg : String)
deriving DecidableEq

/-- Display of the modelled ExecutionError: its carried message. -/
def executionErrorDisplay : ExecutionError → String
  | .rendered msg => msg

/-- Result of executing the transaction: the CallError enum of
src/src/transaction/error.rs lines 219-230. -/
inductive CallError where
  | transactionNotFound
  | statePruned
  | exceptional (e : VmError)
  | stateCorrupt
  | execution (e : ExecutionError)
deriving DecidableEq

/-- The variant-specific detail of the Display implementation of CallError,
src/src/transaction/error.rs lines 241-247. -/
def callErrorMsg : CallError → String
  | .transactionNotFound => "Transaction couldn\x27t be found in the chain"
  | .statePruned => "Couldn\x27t find the transaction block\x27s state in the chain"
  | .exceptional e => "An exception (" ++ vmErrorDisplay e ++ ") happened in the execution"
  | .stateCorrupt => "Stored state found to be corrupted."
  | .execution e => executionErrorDisplay e

/-- The Display implementation of CallError, src/src/transaction/error.rs
line 249: the detail wrapped as a transaction execution error, with a
trailing period. -/
def callErrorDisplay (c : CallError) : String :=
  "Transaction execution error (" ++ callErrorMsg c ++ ")."

end TxDecoder

namespace TxDecoder

/-- Test vector 0 from should_agree_with_vitalik in src/src/main.rs (hex literal decoded to bytes). -/
def vec0 : List Nat := [248, 100, 128, 133, 4, 168, 23, 200, 0, 130, 82, 8, 148, 53, 53, 53, 53, 53, 53, 53, 53, 53, 53, 53, 53, 53, 53, 53, 53, 53, 53, 53, 53, 128, 128, 37, 160, 4, 72, 82, 178, 166, 112, 173, 229, 64, 126, 120, 251, 40, 99, 197, 29, 233, 252, 185, 101, 66, 160, 113, 134, 254, 58, 237, 166, 187, 138, 17, 109, 160, 4, 72, 82, 178, 166, 112, 173, 229, 64, 126, 120, 251, 40, 99, 197, 29, 233, 252, 185, 101, 66, 160, 113, 134, 254, 58, 237, 166, 187, 138, 17, 109]

/-- Test vector 1 from should_agree_with_vitalik in src/src/main.rs (hex literal decoded to bytes). -/
def vec1 : List Nat := [248, 100, 1, 133, 4, 168, 23, 200, 1, 130, 164, 16, 148, 53, 53, 53, 53, 53, 53, 53, 53, 53, 53, 53, 53, 53, 53, 53, 53, 53, 53, 53, 53, 1, 128, 37, 160, 72, 158, 253, 170, 84, 192, 242, 12, 122, 223, 97, 40, 130, 223, 9, 80, 245, 169, 81, 99, 126, 3, 7, 205, 203, 76, 103, 47, 41, 139, 139, 202, 160, 72, 158, 253, 170, 84, 192, 242, 12, 122, 223, 97, 40, 130, 223, 9, 80, 245, 169, 81, 99, 126, 3, 7, 205, 203, 76, 103, 47, 41, 139, 139, 198]

/-- Test vector 2 from should_agree_with_vitalik in src/src/main.rs (hex literal decoded to bytes). -/
def vec2 : List Nat := [248, 100, 2, 133, 4, 168, 23, 200, 2, 130, 246, 24, 148, 53, 53, 53, 53, 53, 53, 53, 53, 53, 53, 53, 53, 53, 53, 53, 53, 53, 53, 53, 53, 8, 128, 37, 160, 45, 124, 91, 239, 2, 120, 22, 168, 0, 218, 23, 54, 68, 79, 181, 138, 128, 126, 244, 201, 96, 59, 120, 72, 103, 63, 126, 58, 104, 235, 20, 165, 160, 45, 124, 91, 239, 2, 120, 22, 168, 0, 218, 23, 54, 68, 79, 181, 138, 128, 126, 244, 201, 96, 59, 120, 72, 103, 63, 126, 58, 104, 235, 20, 165]

/-- Test vector 3 from should_agree_with_vitalik in src/src/main.rs (hex literal decoded to bytes). -/
def vec3 : List Nat := [248, 101, 3, 133, 4, 168, 23, 200, 3, 131, 1, 72, 32, 148, 53, 53, 53, 53, 53, 53, 53, 53, 53, 53, 53, 53, 53, 53, 53, 53, 53, 53, 53, 53, 27, 128, 37, 160, 42, 128, 225, 239, 29, 120, 66, 242, 127, 46, 107, 224, 151, 43, 183, 8, 185, 161, 53, 195, 136, 96, 219, 231, 60, 39, 195, 72, 108, 52, 244, 224, 160, 42, 128, 225, 239, 29, 120, 66, 242, 127, 46, 107, 224, 151, 43, 183, 8, 185, 161, 53, 195, 136, 96, 219, 231, 60, 39, 195, 72, 108, 52, 244, 222]

/-- Test vector 4 from should_agree_with_vitalik in src/src/main.rs (hex literal decoded to bytes). -/
def vec4 : List Nat := [248, 101, 4, 133, 4, 168, 23, 200, 4, 131, 1, 154, 40, 148, 53, 53, 53, 53, 53, 53, 53, 53, 53, 53, 53, 53, 53, 53, 53, 53, 53, 53, 53, 53, 64, 128, 37, 160, 19, 96, 11, 41, 65, 145, 252, 146, 146, 75, 179, 206, 75, 150, 156, 30, 126, 43, 171, 143, 76, 147, 195, 252, 109, 10, 81, 115, 61, 243, 192, 99, 160, 19, 96, 11, 41, 65, 145, 252, 146, 146, 75, 179, 206, 75, 150, 156, 30, 126, 43, 171, 143, 76, 147, 195, 252, 109, 10, 81, 115, 61, 243, 192, 96]

/-- Test vector 5 from should_agree_with_vitalik in src/src/main.rs (hex literal decoded to bytes). -/
def vec5 : List Nat := [248, 101, 5, 133, 4, 168, 23, 200, 5, 131, 1, 236, 48, 148, 53, 53, 53, 53, 53, 53, 53, 53, 53, 53, 53, 53, 53, 53, 53, 53, 53, 53, 53, 53, 125, 128, 37, 160, 78, 235, 247, 122, 131, 59, 48, 82, 2, 135, 221, 217, 71, 143, 245, 26, 187, 223, 250, 48, 170, 144, 168, 214, 85, 219, 160, 232, 167, 156, 224, 193, 160, 78, 235, 247, 122, 131, 59, 48, 82, 2, 135, 221, 217, 71, 143, 245, 26, 187, 223, 250, 48, 170, 144, 168, 214, 85, 219, 160, 232, 167, 156, 224, 193]

/-- Test vector 6 from should_agree_with_vitalik in src/src/main.rs (hex literal decoded to bytes). -/
def vec6 : List Nat := [248, 102, 6, 133, 4, 168, 23, 200, 6, 131, 2, 62, 56, 148, 53, 53, 53, 53, 53, 53, 53, 53, 53, 53, 53, 53, 53, 53, 53, 53, 53, 53, 53, 53, 129, 216, 128, 37, 160, 100, 85, 191, 142, 166, 231, 70, 58, 16, 70, 160, 181, 40, 4, 82, 110, 17, 155, 75, 245, 19, 98, 121, 97, 78, 11, 30, 142, 41, 106, 78, 47, 160, 100, 85, 191, 142, 166, 231, 70, 58, 16, 70, 160, 181, 40, 4, 82, 110, 17, 155, 75, 245, 19, 98, 121, 97, 78, 11, 30, 142, 41, 106, 78, 45]

/-- Test vector 7 from should_agree_with_vitalik in src/src/main.rs (hex literal decoded to bytes). -/
def vec7 : List Nat := [248, 103, 7, 133, 4, 168, 23, 200, 7, 131, 2, 144, 64, 148, 53, 53, 53, 53, 53, 53, 53, 53, 53, 53, 53, 53, 53, 53, 53, 53, 53, 53, 53, 53, 130, 1, 87, 128, 37, 160, 82, 241, 169, 179, 32, 202, 179, 142, 93, 168, 168, 249, 121, 137, 56, 58, 171, 10, 73, 22, 95, 201, 28, 115, 115, 16, 228, 247, 233, 130, 16, 33, 160, 82, 241, 169, 179, 32, 202, 179, 142, 93, 168, 168, 249, 121, 137, 56, 58, 171, 10, 73, 22, 95, 201, 28, 115, 115, 16, 228, 247, 233, 130, 16, 33]

/-- Test vector 8 from should_agree_with_vitalik in src/src/main.rs (hex literal decoded to bytes). -/
def vec8 : List Nat := [248, 103, 8, 133, 4, 168, 23, 200, 8, 131, 2, 226, 72, 148, 53, 53, 53, 53, 53, 53, 53, 53, 53, 53, 53, 53, 53, 53, 53, 53, 53, 53, 53, 53, 130, 2, 0, 128, 37, 160, 100, 177, 112, 45, 146, 152, 254, 230, 45, 254, 204, 197, 125, 50, 42, 70, 58, 213, 92, 162, 1, 37, 109, 1, 246, 43, 69, 178, 225, 194, 28, 18, 160, 100, 177, 112, 45, 146, 152, 254, 230, 45, 254, 204, 197, 125, 50, 42, 70, 58, 213, 92, 162, 1, 37, 109, 1, 246, 43, 69, 178, 225, 194, 28, 16]

/-- Test vector 9 from should_agree_with_vitalik in src/src/main.rs (hex literal decoded to bytes). -/
def vec9 : List Nat := [248, 103, 9, 133, 4, 168, 23, 200, 9, 131, 3, 52, 80, 148, 53, 53, 53, 53, 53, 53, 53, 53, 53, 53, 53, 53, 53, 53, 53, 53, 53, 53, 53, 53, 130, 2, 217, 128, 37, 160, 82, 248, 246, 18, 1, 178, 177, 26, 120, 214, 232, 102, 171, 201, 195, 219, 42, 232, 99, 31, 166, 86, 191, 229, 203, 83, 102, 130, 85, 54, 122, 251, 160, 82, 248, 246, 18, 1, 178, 177, 26, 120, 214, 232, 102, 171, 201, 195, 219, 42, 232, 99, 31, 166, 86, 191, 229, 203, 83, 102, 130, 85, 54, 122, 251]


/-- C1: each of the ten RLP-encoded byte sequences of the harness decodes,
passes the verifying constructor, and recovers the listed sender address. -/
theorem should_agree_with_vitalik :
    senderOf vec0 = some 0xf0f6f18bca1b28cd68e4357452947e021241e9ce ∧
    senderOf vec1 = some 0x23ef145a395ea3fa3deb533b8a9e1b4c6c25d112 ∧
    senderOf vec2 = some 0x2e485e0c23b4c3c542628a5f672eeab0ad4888be ∧
    senderOf vec3 = some 0x82a88539669a3fd524d669e858935de5e5410cf0 ∧
    senderOf vec4 = some 0xf9358f2538fd5ccfeb848b64a96b743fcc930554 ∧
    senderOf vec5 = some 0xa8f7aba377317440bc5b26198a363ad22af1f3a4 ∧
    senderOf vec6 = some 0xf1f571dc362a0e5b2696b8e775f8491d3e50de35 ∧
    senderOf vec7 = some 0xd37922162ab7cea97c97a87551ed02c9a38b7332 ∧
    senderOf vec8 = some 0x9bddad43f934d313c2b79ca28a432dd2b7281029 ∧
    senderOf vec9 = some 0x3c24d7329e92f84f08556ceb6df1cdb0104ca49f := by
  refine ⟨?_, ?_, ?_, ?_, ?_, ?_, ?_, ?_, ?_, ?_⟩ <;> decide

end TxDecoder

namespace TxDecoder

/-- C2: decode_v maps 27 and 28 to the legacy pair, every v at least 35 to
the replay-protected pair, and every other v to an InvalidSignature error. -/
theorem decodeV_cases (v : Nat) :
    (v = 27 ∨ v = 28 → decodeV v = .ok (v - 27, none)) ∧
    (35 ≤ v → decodeV v = .ok ((v - 35) % 2, some ((v - 35) / 2))) ∧
    ((v < 27 ∨ (28 < v ∧ v < 35)) →
      ∃ m, decodeV v = .error (Error.invalidSignature m)) := by
  refine ⟨fun h => ?_, fun h => ?_, fun h => ?_⟩
  · unfold decodeV
    rw [if_pos h]
  · unfold decodeV
    rw [if_neg (by omega), if_pos h]
  · refine ⟨"invalid v", ?_⟩
    unfold decodeV
    rw [if_neg (by omega), if_neg (by omega)]

/-- Witness for C2 at v = 28, 37 and 30. -/
theorem decodeV_cases_witness :
    decodeV 28 = .ok (1, none) ∧ decodeV 37 = .ok (0, some 1) ∧
      (∃ m, decodeV 30 = .error (Error.invalidSignature m)) :=
  ⟨(decodeV_cases 28).1 (Or.inr rfl), (decodeV_cases 37).2.1 (by omega),
    (decodeV_cases 30).2.2 (by omega)⟩

/-- C3: decoding the encoded v gives back the recovery bit and chain id for
every bit in 0..1 and chain id absent or below 2^31. -/
theorem decodeV_encodeV (b : Nat) (c : Option Nat) (hb : b ≤ 1)
    (hc : ∀ x ∈ c, x < 2 ^ 31) :
    decodeV (encodeV b c) = .ok (b, c) := by
  cases c with
  | none =>
    unfold encodeV decodeV
    have h27 : (27 + b) % 2 ^ 64 = 27 + b := Nat.mod_eq_of_lt (by omega)
    rw [h27, if_pos (by omega)]
    have hsub : 27 + b - 27 = b := by omega
    rw [hsub]
  | some x =>
    have hx : x < 2 ^ 31 := hc x rfl
    unfold encodeV decodeV
    have hmod : (x * 2 + 35 + b) % 2 ^ 64 = x * 2 + 35 + b := Nat.mod_eq_of_lt (by omega)
    rw [hmod, if_neg (by omega), if_pos (by omega)]
    have h1 : (x * 2 + 35 + b - 35) % 2 = b := by omega
    have h2 : (x * 2 + 35 + b - 35) / 2 = x := by omega
    rw [h1, h2]

/-- Witness for C3 at bit 1 and chain id 1, the convention of the harness
vectors. -/
theorem decodeV_encodeV_witness : decodeV (encodeV 1 (some 1)) = .ok (1, some 1) :=
  decodeV_encodeV 1 (some 1) (by omega) (by intro x hx; cases hx; omega)

/-- C4: every Error renders as the detail wrapped in a transaction-error
frame, and the InsufficientGasPrice example renders to the literal string. -/
theorem error_display_wrapped :
    (∀ e : Error, errorDisplay e = "Transaction error (" ++ errorMsg e ++ ")") ∧
    errorDisplay (Error.insufficientGasPrice 5 3) =
      "Transaction error (Insufficient gas price. Min=5, Given=3)" :=
  ⟨fun _ => rfl, by decide⟩

/-- C5: the conversions from a crypto failure and from a codec failure are
total: every value lands in InvalidSignature, respectively InvalidRlp, and
carries that failure message. -/
theorem from_conversions_total :
    (∀ e : EthPublicKeyCryptoError,
      fromCrypto e = Error.invalidSignature (cryptoErrorDisplay e)) ∧
    (∀ d : DecoderError, fromDecoder d = Error.invalidRlp (decoderErrorDisplay d)) :=
  ⟨fun _ => rfl, fun _ => rfl⟩

/-- C6: whenever the codec stage rejects a byte buffer, the pipeline returns
the InvalidRlp variant carrying the codec diagnostic, as a value. -/
theorem decode_failure_yields_invalidRlp (bs : List Nat) (de : DecoderError)
    (h : decodeTx bs = .error de) :
    decodeAndVerify bs = .error (Error.invalidRlp (decoderErrorDisplay de)) := by
  unfold decodeAndVerify
  rw [h]
  rfl

/-- Witness for C6 on a truncated buffer, a buffer with a trailing byte
after the transaction list, and a non-canonically encoded integer. -/
theorem decode_failure_yields_invalidRlp_witness :
    decodeAndVerify [248, 100] = .error (Error.invalidRlp "RlpIsTooShort") ∧
    decodeAndVerify [201, 128, 128, 128, 128, 128, 128, 27, 1, 1, 0] =
      .error (Error.invalidRlp "RlpIsTooBig") ∧
    decodeAndVerify [203, 130, 0, 1, 128, 128, 128, 128, 128, 27, 1, 1] =
      .error (Error.invalidRlp "RlpInvalidIndirection") :=
  ⟨decode_failure_yields_invalidRlp _ DecoderError.rlpIsTooShort rfl,
    decode_failure_yields_invalidRlp _ DecoderError.rlpIsTooBig rfl,
    decode_failure_yields_invalidRlp _ DecoderError.rlpInvalidIndirection rfl⟩

/-- C7: recovery yields an address exactly when r and s are nonzero and
below the curve order, a candidate point exists for r, and the recovered
point is finite; in every other case the error is the InvalidSignature
crypto failure. -/
theorem recoverSender_errors (r s bit z : Nat) :
    ((∃ e, recoverSender r s bit z = .error e) ↔
      (r = 0 ∨ secpN ≤ r ∨ s = 0 ∨ secpN ≤ s ∨ decompressR r bit = none ∨
        toAffine (recoverQ r s bit z) = none)) ∧
    (∀ e, recoverSender r s bit z = .error e →
      e = EthPublicKeyCryptoError.invalidSignature) := by
  unfold recoverSender
  by_cases hr : 0 < r ∧ r < secpN ∧ 0 < s ∧ s < secpN
  · rw [if_pos hr]
    cases hdc : decompressR r bit with
    | none =>
      refine ⟨⟨fun _ => Or.inr (Or.inr (Or.inr (Or.inr (Or.inl rfl)))), fun _ => ⟨_, rfl⟩⟩,
        fun e he => ?_⟩
      simp at he
      exact he.symm
    | some xy =>
      cases hta : toAffine (recoverQ r s bit z) with
      | none =>
        refine ⟨⟨fun _ => Or.inr (Or.inr (Or.inr (Or.inr (Or.inr rfl)))), fun _ => ⟨_, rfl⟩⟩,
          fun e he => ?_⟩
        simp at he
        exact he.symm
      | some a =>
        constructor
        · constructor
          · rintro ⟨e, he⟩
            simp at he
          · intro h
            rcases h with h | h | h | h | h | h
            · omega
            · omega
            · omega
            · omega
            · exact Option.noConfusion h
            · exact Option.noConfusion h
        · intro e he
          simp at he
  · rw [if_neg hr]
    refine ⟨⟨fun _ => ?_, fun _ => ⟨_, rfl⟩⟩, fun e he => ?_⟩
    · have h4 : r = 0 ∨ secpN ≤ r ∨ s = 0 ∨ secpN ≤ s := by omega
      rcases h4 with h | h | h | h
      · exact Or.inl h
      · exact Or.inr (Or.inl h)
      · exact Or.inr (Or.inr (Or.inl h))
      · exact Or.inr (Or.inr (Or.inr (Or.inl h)))
    · injection he with h
      exact h.symm

/-- Witness for C7: a zero r scalar is rejected. -/
theorem recoverSender_errors_witness : ∃ e, recoverSender 0 1 0 0 = .error e :=
  (recoverSender_errors 0 1 0 0).1.mpr (Or.inl rfl)

/-- C8: the TooCheapToReplace fields are optional and are debug-formatted:
present values render as Some and absent ones as the literal None. -/
theorem tooCheapToReplace_display :
    errorDisplay (Error.tooCheapToReplace (some 5) (some 3)) =
      "Transaction error (Gas price too low to replace, previous tx gas: Some(5), new tx gas: Some(3))" ∧
    errorDisplay (Error.tooCheapToReplace none none) =
      "Transaction error (Gas price too low to replace, previous tx gas: None, new tx gas: None)" :=
  by decide

/-- C9: a Wasm fault and an Internal fault with the same message render to
the same string, so the Display of VmError is not injective. -/
theorem wasm_internal_indistinguishable (m : String) :
    vmErrorDisplay (VmError.wasm m) = vmErrorDisplay (VmError.internal m) ∧
    vmErrorDisplay (VmError.wasm m) = "Internal error: " ++ m ∧
    VmError.wasm m ≠ VmError.internal m :=
  ⟨rfl, rfl, fun h => VmError.noConfusion h⟩

/-- C10: every CallError renders as the detail wrapped in a
transaction-execution-error frame with a trailing period, and the
Exceptional variant embeds the full VmError rendering. -/
theorem callError_display_form :
    (∀ c : CallError,
      callErrorDisplay c = "Transaction execution error (" ++ callErrorMsg c ++ ").") ∧
    (∀ v : VmError, callErrorMsg (CallError.exceptional v) =
      "An exception (" ++ vmErrorDisplay v ++ ") happened in the execution") ∧
    callErrorDisplay (CallError.exceptional VmError.outOfGas) =
      "Transaction execution error (An exception (Out of gas) happened in the execution)." :=
  ⟨fun _ => rfl, fun _ => rfl, by decide⟩

end TxDecoder
